import Mathlib

/-!
Verification development for the plotting component of the atmos toolkit
(file src/atmos/plots.py) and the package facade (src/atmos/init).
The Python functions are shallowly embedded: numeric values are
rationals, numpy arrays are lists of rationals (2-D arrays are lists of
rows), the plotting side effects are recorded as an explicit trace of
plot commands, and Python exceptions are modelled with an error type
threaded through Except.
-/

namespace AtmosPlots

/-- Kinds of Python exceptions that the embedded code can raise.
A ValueError is what plots.py raises on invalid axis or label inputs;
a TypeError models an uncaught builtin type failure (such as unpacking
None or multiplying by None); an ImportError models a failed
from-module import of an undefined name. -/
inductive PyError where
  | valueError : String → PyError
  | typeError : String → PyError
  | importError : String → PyError
deriving DecidableEq, Repr

/-- ASCII lowercasing of a string, character by character, modelling the
Python str.lower method as applied to the plain ASCII axis-type and
axis-name arguments used in plots.py. -/
def pyLower (s : String) : String := String.mk (s.data.map Char.toLower)

/-- The list of multiples a + i * c for i below n.  Helper used to state
closed forms of the numpy arange calls appearing in plots.py. -/
def stepList (a c : ℚ) (n : ℕ) : List ℚ :=
  (List.range n).map (fun i : ℕ => a + (i : ℚ) * c)

/-- Embedding of numpy.arange(start, stop, step) for a positive step:
the arithmetic sequence start, start + step, ... of length
ceil((stop - start) / step), empty when that length is not positive. -/
def arange (start stop step : ℚ) : List ℚ :=
  stepList start step (Int.ceil ((stop - start) / step)).toNat

/-- The tick count n2 - n1 + 1 computed by autoticks in plots.py for a
candidate width w: n1 = ceil(axmin / w), n2 = floor(axmax / w). -/
def ntickCount (axmin axmax w : ℚ) : ℤ :=
  Int.floor (axmax / w) - Int.ceil (axmin / w) + 1

/-- The candidate width lists of autoticks (plots.py lines 37-42):
lat and lon use [10, 15, 30, 60], pres uses [50, 100, 200], and any
other axis type raises ValueError.  The comparison is case insensitive
because the source lowercases axtype before comparing. -/
def wlistFor (axtype : String) : Except PyError (List ℚ) :=
  if pyLower axtype = "lon" ∨ pyLower axtype = "lat" then .ok [10, 15, 30, 60]
  else if pyLower axtype = "pres" then .ok [50, 100, 200]
  else .error (.valueError ("Invalid axtype: " ++ axtype))

/-- The search loop of autoticks (plots.py lines 44-50): for each
candidate w in order, compute n1 = ceil(axmin / w), n2 = floor(axmax / w)
and stop at the first w whose tick count n2 - n1 + 1 is at most nmax,
returning that w together with its n1 and n2.  If no candidate
qualifies the loop falls through with the width variable still unset,
modelled by returning none. -/
def autoticksLoop (axmin axmax : ℚ) (nmax : ℤ) : List ℚ → Option (ℚ × ℤ × ℤ)
  | [] => none
  | w :: ws =>
    let n1 := Int.ceil (axmin / w)
    let n2 := Int.floor (axmax / w)
    if n2 - n1 + 1 ≤ nmax then some (w, n1, n2)
    else autoticksLoop axmin axmax nmax ws

/-- Python truthiness of the width argument: the source guards the
automatic branch with the test "if not width", which treats both None
and 0 as absent. -/
def widthTruthy : Option ℚ → Option ℚ
  | none => none
  | some w => if w = 0 then none else some w

/-- The tick array built at plots.py line 57:
numpy.arange(n1 * width, (n2 + 0.1) * width, width). -/
def tickArange (n1 n2 : ℤ) (w : ℚ) : List ℚ :=
  arange ((n1 : ℚ) * w) (((n2 : ℚ) + 1 / 10) * w) w

/-- Embedding of autoticks(axtype, axmin, axmax, width, nmax) from
plots.py lines 13-58.  When width is falsy the candidate list for the
axis type is searched for the first width whose tick count is at most
nmax; if the search fails the width variable is still None at line 57
and the expression n1 * width raises a TypeError.  When a truthy width
is given the axis type is never inspected and n1, n2 come directly from
that width. -/
def autoticks (axtype : String) (axmin axmax : ℚ) (width : Option ℚ)
    (nmax : ℤ) : Except PyError (List ℚ) :=
  match widthTruthy width with
  | none =>
    match wlistFor axtype with
    | .error e => .error e
    | .ok wlist =>
      match autoticksLoop axmin axmax nmax wlist with
      | some (w, n1, n2) => .ok (tickArange n1 n2 w)
      | none => .error (.typeError "unsupported operand type for *: float and NoneType")
  | some w => .ok (tickArange (Int.ceil (axmin / w)) (Int.floor (axmax / w)) w)

/-- Embedding of ndarray.max() over the flattened values: the maximum
of a list, with the head as the initial accumulator.  numpy raises on
an empty array; the theorems below only use nonempty data, and the
empty case is given the junk value 0. -/
def npMax : List ℚ → ℚ
  | [] => 0
  | x :: xs => xs.foldl max x

/-- Embedding of ndarray.min(), in the same style as npMax. -/
def npMin : List ℚ → ℚ
  | [] => 0
  | x :: xs => xs.foldl min x

/-- Embedding of clevels(data, cint, posneg, symmetric, omitzero) from
plots.py lines 80-123.  If symmetric, cmax is the maximum absolute
value of the data divided by cint, ceiled, times cint, and cmin is its
negation; otherwise cmin floors the minimum and cmax ceils the maximum
to multiples of cint.  posneg pos resets cmin to 0 and posneg neg
resets cmax to 0.  The levels are numpy.arange(cmin, cmax + 0.1 * cint,
cint), and omitzero filters out the zero level. -/
def clevels (data : List ℚ) (cint : ℚ) (posneg : String)
    (symmetric : Bool) (omitzero : Bool) : List ℚ :=
  let cm :=
    if symmetric then
      let cabs := (Int.ceil (npMax (data.map (fun x => |x|)) / cint) : ℚ) * cint
      (-cabs, cabs)
    else
      ((Int.floor (npMin data / cint) : ℚ) * cint,
       (Int.ceil (npMax data / cint) : ℚ) * cint)
  let cmin := if posneg = "pos" then 0 else cm.1
  let cmax := if posneg = "neg" then 0 else cm.2
  let clev := arange cmin (cmax + cint / 10) cint
  if omitzero then clev.filter (fun x => x ≠ 0) else clev

/-- Plot commands recorded by the embedded plotting functions, standing
for the matplotlib and basemap side effects of plots.py. -/
inductive PlotCmd where
  | drawCoastlines
  | mapticksCmd (xticks yticks : List ℚ)
  | axesSetup (xticks yticks : List ℚ)
  | fillBetween (x : Option (List ℚ)) (ymax : ℚ) (ps : List ℚ)
  | contourfCmd (vals : List (List ℚ)) (levels : List ℚ)
  | contourfAuto (vals : List (List ℚ))
  | contourCmd (vals : List (List ℚ)) (levels : List ℚ)
  | contourAuto (vals : List (List ℚ))
  | colorbar
deriving DecidableEq, Repr

/-- The clev argument of the contour plotting functions: a scalar
spacing, an explicit level array, or absent (None). -/
inductive Clev where
  | scalar (c : ℚ)
  | levels (l : List ℚ)
  | auto
deriving DecidableEq, Repr

/-- A lat-lon data argument: either a labeled array carrying lat and lon
coordinates (xray.DataArray) or a bare 2-D ndarray. -/
inductive LLData where
  | xr (values : List (List ℚ)) (lat lon : List ℚ)
  | nd (values : List (List ℚ))
deriving DecidableEq, Repr

/-- A lat-pres data argument: either a labeled array carrying lat and
plev coordinates (xray.DataArray) or a bare 2-D ndarray. -/
inductive LPData where
  | xr (values : List (List ℚ)) (lat plev : List ℚ)
  | nd (values : List (List ℚ))
deriving DecidableEq, Repr

/-- The topo argument of contour_latpres: a bare array of surface
pressures, a labeled array carrying its own latitude coordinate, or
absent (None). -/
inductive TopoArg where
  | nd (ps : List ℚ)
  | xr (ps : List ℚ) (lat : List ℚ)
  | none
deriving DecidableEq, Repr

/-- Embedding of init_latlon from plots.py lines 127-137: create the
basemap, draw coastlines, compute automatic lon and lat ticks and draw
them.  The tick computations can raise, which is propagated. -/
def init_latlon (lat1 lat2 lon1 lon2 : ℚ) : Except PyError (List PlotCmd) := do
  let xticks ← autoticks "lon" lon1 lon2 none 8
  let yticks ← autoticks "lat" lat1 lat2 none 8
  .ok [.drawCoastlines, .mapticksCmd xticks yticks]

/-- Embedding of contourf_latlon from plots.py lines 187-234.  lat and
lon come from the labeled array when data is one; a scalar clev is
expanded with clevels using the symmetric flag, whose source default is
true; the basemap is created with init_latlon when m is not supplied;
filled contours are drawn with explicit levels when available and with
automatic levels otherwise, followed by a colorbar. -/
def contourf_latlon (data : LLData) (lat lon : Option (List ℚ)) (clev : Clev)
    (mGiven : Bool) (symmetric : Bool := true)
    (axlims : ℚ × ℚ × ℚ × ℚ := (-90, 90, 0, 360)) :
    Except PyError (List PlotCmd) := do
  let vals := match data with
    | .xr v _ _ => v
    | .nd v => v
  let clevR : Option (List ℚ) := match clev with
    | .scalar c => some (clevels vals.flatten c "both" symmetric false)
    | .levels l => some l
    | .auto => none
  let (lat1, lat2, lon1, lon2) := axlims
  let setup ← if mGiven then pure [] else init_latlon lat1 lat2 lon1 lon2
  match clevR with
  | none => .ok (setup ++ [.contourfAuto vals, .colorbar])
  | some l => .ok (setup ++ [.contourfCmd vals l, .colorbar])

/-- Embedding of contour_latlon from plots.py lines 238-286: as
contourf_latlon but line contours, a scalar clev expanded with clevels
at its source defaults (symmetric false), and no colorbar. -/
def contour_latlon (data : LLData) (lat lon : Option (List ℚ)) (clev : Clev)
    (mGiven : Bool) (axlims : ℚ × ℚ × ℚ × ℚ := (-90, 90, 0, 360)) :
    Except PyError (List PlotCmd) := do
  let vals := match data with
    | .xr v _ _ => v
    | .nd v => v
  let clevR : Option (List ℚ) := match clev with
    | .scalar c => some (clevels vals.flatten c "both" false false)
    | .levels l => some l
    | .auto => none
  let (lat1, lat2, lon1, lon2) := axlims
  let setup ← if mGiven then pure [] else init_latlon lat1 lat2 lon1 lon2
  match clevR with
  | none => .ok (setup ++ [.contourAuto vals])
  | some l => .ok (setup ++ [.contourCmd vals l])

/-- Embedding of init_latpres from plots.py lines 290-319: compute
automatic lat ticks and pres ticks, set up the axes, and when a surface
pressure profile is given fill between it and the bottom pressure
limit. -/
def init_latpres (latmin latmax pmin pmax : ℚ)
    (topo_ps topo_lat : Option (List ℚ)) : Except PyError (List PlotCmd) := do
  let xticks ← autoticks "lat" latmin latmax none 8
  let yticks ← autoticks "pres" pmin pmax none 8
  match topo_ps with
  | some ps => .ok [.axesSetup xticks yticks, .fillBetween topo_lat pmax ps]
  | none => .ok [.axesSetup xticks yticks]

/-- Embedding of contour_latpres from plots.py lines 322-383.  lat and
plev come from the labeled array when data is one.  The topo dispatch
at lines 360-365 accepts a bare array (paired with the data latitude)
or a labeled array (paired with its own latitude); in the remaining
case the source executes the statement assigning the single value None
to the pair topo_ps, topo_lat, which raises a TypeError from unpacking
None.  A scalar clev is expanded with clevels at its source defaults.
Axes are set up with init_latpres and the contour lines are drawn. -/
def contour_latpres (data : LPData) (lat plev : Option (List ℚ))
    (clev : Clev) (topo : TopoArg)
    (axlims : ℚ × ℚ × ℚ × ℚ := (-90, 90, 0, 1000)) :
    Except PyError (List PlotCmd) := do
  let vals := match data with
    | .xr v _ _ => v
    | .nd v => v
  let latEff : Option (List ℚ) := match data with
    | .xr _ la _ => some la
    | .nd _ => lat
  let _plevEff : Option (List ℚ) := match data with
    | .xr _ _ pl => some pl
    | .nd _ => plev
  let tp : Option (List ℚ) × Option (List ℚ) ←
    match topo with
    | .nd ps => pure (some ps, latEff)
    | .xr ps la => pure (some ps, some la)
    | .none => Except.error (.typeError "cannot unpack non-iterable NoneType")
  let clevR : Option (List ℚ) := match clev with
    | .scalar c => some (clevels vals.flatten c "both" false false)
    | .levels l => some l
    | .auto => none
  let (latmin, latmax, pmin, pmax) := axlims
  let setup ← init_latpres latmin latmax pmin pmax tp.1 tp.2
  match clevR with
  | none => .ok (setup ++ [.contourAuto vals])
  | some l => .ok (setup ++ [.contourCmd vals l])

/-- Embedding of pcolor_latpres from plots.py lines 387-388: the body
is only a docstring, so a call performs no plotting (empty trace) and
returns the Python value None (modelled by Option.none). -/
def pcolor_latpres (_ : Unit) : List PlotCmd × Option Unit := ([], Option.none)

/-- Embedding of contourf_latpres from plots.py lines 390-391, an empty
stub in the same sense as pcolor_latpres. -/
def contourf_latpres (_ : Unit) : List PlotCmd × Option Unit := ([], Option.none)

/-- Embedding of contourf_timelat from plots.py lines 419-420, an empty
stub in the same sense as pcolor_latpres. -/
def contourf_timelat (_ : Unit) : List PlotCmd × Option Unit := ([], Option.none)

/-- Embedding of degree_sign from plots.py lines 393-395. -/
def degree_sign : String := "$^\\circ$"

/-- Embedding of latlon_labels(vals, latlon, fmt) from plots.py lines
397-416.  The numeric format argument is abstracted as a rendering
function from numbers to strings.  Latitude gives suffixes N and S,
longitude E and W, any other axis name raises ValueError; a nonnegative
value is rendered directly with the positive suffix and a negative one
is rendered through its absolute value with the negative suffix. -/
def latlon_labels (vals : List ℚ) (latlon : String) (fmt : ℚ → String) :
    Except PyError (List String) := do
  let pn : String × String ←
    if pyLower latlon = "lat" then pure ("N", "S")
    else if pyLower latlon = "lon" then pure ("E", "W")
    else Except.error (.valueError ("Invalid input latlon = " ++ latlon))
  .ok (vals.map (fun num =>
    if 0 ≤ num then fmt num ++ degree_sign ++ pn.1
    else fmt |num| ++ degree_sign ++ pn.2))

/-- The module-level names defined by src/atmos/plots.py: its function
definitions together with the names bound by its import statements. -/
def plots_defined : List String :=
  ["math", "np", "plt", "Basemap", "xray", "print_if",
   "autoticks", "mapticks", "clevels", "init_latlon", "pcolor_latlon",
   "contourf_latlon", "contour_latlon", "init_latpres", "contour_latpres",
   "pcolor_latpres", "contourf_latpres", "degree_sign", "latlon_labels",
   "contourf_timelat"]

/-- The names the package facade src/atmos/init tries to re-export from
the plots module, in source order (lines 100-120). -/
def facade_plots_imports : List String :=
  ["degree_sign", "latlon_labels", "latlon_str", "mapticks", "autoticks",
   "clevels", "cinterval", "climits", "colorbar_symm", "init_latlon",
   "geobox", "pcolor_latlon", "contourf_latlon", "contour_latlon",
   "init_latpres", "pcolor_latpres", "contourf_latpres", "contour_latpres",
   "stipple_pts"]

/-- Semantics of the from-plots import statement in the facade: Python
binds the requested names in order and raises ImportError at the first
name the plots module does not define. -/
def import_plots_into_facade : Except PyError Unit :=
  match facade_plots_imports.find? (fun n => ¬ plots_defined.contains n) with
  | some n => .error (.importError n)
  | Option.none => .ok ()

/-! General lemmas about the helper functions. -/

theorem le_foldl_max (l : List ℚ) (a : ℚ) : a ≤ l.foldl max a := by
  induction l generalizing a with
  | nil => exact le_refl a
  | cons x xs ih => exact le_trans (le_max_left a x) (ih (max a x))

theorem foldl_max_of_mem (l : List ℚ) (a x : ℚ) (hx : x ∈ l) :
    x ≤ l.foldl max a := by
  induction l generalizing a with
  | nil => cases hx
  | cons y ys ih =>
    rcases List.mem_cons.mp hx with h | h
    · subst h
      exact le_trans (le_max_right a x) (le_foldl_max ys (max a x))
    · exact ih (max a y) h

theorem le_npMax (l : List ℚ) (x : ℚ) (hx : x ∈ l) : x ≤ npMax l := by
  match l, hx with
  | y :: ys, hx =>
    rcases List.mem_cons.mp hx with h | h
    · subst h; exact le_foldl_max ys x
    · exact foldl_max_of_mem ys y x h

theorem npMax_abs_nonneg (l : List ℚ) (hl : l ≠ []) :
    0 ≤ npMax (l.map (fun x => |x|)) := by
  match l, hl with
  | y :: ys, _ =>
    exact le_trans (abs_nonneg y)
      (le_npMax ((y :: ys).map (fun x => |x|)) |y|
        (List.mem_map.mpr ⟨y, List.mem_cons_self y ys, rfl⟩))

theorem ceil_add_tenth (z : ℤ) : ⌈(z : ℚ) + 1 / 10⌉ = z + 1 := by
  have h : ⌈(1 / 10 : ℚ)⌉ = 1 := by
    rw [Int.ceil_eq_iff]
    norm_num
  rw [add_comm, Int.ceil_add_int, h]
  ring

theorem arange_stop_int (a c : ℚ) (hc : 0 < c) (z : ℤ) :
    arange a (a + z * c + c / 10) c = stepList a c (z + 1).toNat := by
  unfold arange
  congr 1
  have hcne : c ≠ 0 := ne_of_gt hc
  have h1 : (a + z * c + c / 10 - a) / c = (z : ℚ) + 1 / 10 := by
    field_simp
    ring
  rw [h1, ceil_add_tenth]

theorem stepList_head (a c : ℚ) (n : ℕ) :
    (stepList a c (n + 1)).head? = some a := by
  simp [stepList, List.range_succ_eq_map]

theorem stepList_last (a c : ℚ) (n : ℕ) :
    (stepList a c (n + 1)).getLast? = some (a + n * c) := by
  rw [stepList, List.range_succ, List.map_append]
  simp [List.getLast?_concat]

theorem stepList_chain (a c : ℚ) (n : ℕ) :
    List.Chain' (fun p q => q - p = c) (stepList a c n) := by
  rw [stepList, List.chain'_map]
  cases n with
  | zero => simp
  | succ m =>
    rw [List.chain'_range_succ]
    intro i _
    push_cast
    ring

theorem stepList_mem (a c : ℚ) (n : ℕ) (x : ℚ) (hx : x ∈ stepList a c n) :
    ∃ i : ℕ, i < n ∧ x = a + i * c := by
  rw [stepList, List.mem_map] at hx
  rcases hx with ⟨i, hi, hx⟩
  exact ⟨i, List.mem_range.mp hi, hx.symm⟩

theorem stepList_length (a c : ℚ) (n : ℕ) : (stepList a c n).length = n := by
  simp [stepList]

theorem stepList_reverse_neg (k : ℕ) (c : ℚ) :
    (stepList (-(k * c)) c (2 * k + 1)).reverse =
      (stepList (-(k * c)) c (2 * k + 1)).map (fun x => -x) := by
  apply List.ext_getElem
  · simp [stepList]
  · intro i h1 h2
    rw [List.getElem_reverse]
    simp only [stepList, List.getElem_map, List.getElem_range]
    have hi : i ≤ 2 * k := by
      simp only [stepList, List.length_map, List.length_range] at h2
      omega
    have hsub : ((List.map (fun i : ℕ => -((k : ℚ) * c) + (i : ℚ) * c)
        (List.range (2 * k + 1))).length - 1 - i) = 2 * k - i := by
      simp only [List.length_map, List.length_range]
      omega
    rw [hsub]
    have hc2 : ((2 * k - i : ℕ) : ℚ) = 2 * (k : ℚ) - (i : ℚ) := by
      push_cast [Nat.cast_sub hi]
      ring
    rw [hc2]
    ring

/-! Evaluation helpers for concrete autoticks runs. -/

theorem wlistFor_latlon (axtype : String)
    (h : pyLower axtype = "lat" ∨ pyLower axtype = "lon") :
    wlistFor axtype = .ok [10, 15, 30, 60] := by
  unfold wlistFor
  rcases h with h | h
  · rw [h, if_pos (Or.inr rfl)]
  · rw [h, if_pos (Or.inl rfl)]

theorem wlistFor_lat : wlistFor "lat" = .ok [10, 15, 30, 60] :=
  wlistFor_latlon "lat" (Or.inl (by decide))

theorem autoticksLoop_none (axmin axmax : ℚ) (nmax : ℤ) (ws : List ℚ)
    (h : ∀ w ∈ ws, nmax < ntickCount axmin axmax w) :
    autoticksLoop axmin axmax nmax ws = none := by
  induction ws with
  | nil => rfl
  | cons w ws ih =>
    have hw := h w (List.mem_cons_self w ws)
    rw [ntickCount] at hw
    simp only [autoticksLoop]
    rw [if_neg (by omega)]
    exact ih (fun x hx => h x (List.mem_cons_of_mem w hx))

theorem arange_eval (start stop step : ℚ) (n : ℕ)
    (h : ⌈(stop - start) / step⌉ = (n : ℤ)) :
    arange start stop step = stepList start step n := by
  unfold arange
  rw [h]
  simp

/-- C10: for any axis type lowercasing to lat or lon, when width is
omitted and every candidate spacing in 10, 15, 30, 60 gives more than
nmax ticks, autoticks does not raise the invalid-axtype ValueError: the
selection loop leaves the width unset and the tick generation step
raises a TypeError. -/
theorem autoticks_all_candidates_fail (axtype : String) (axmin axmax : ℚ)
    (nmax : ℤ) (hax : pyLower axtype = "lat" ∨ pyLower axtype = "lon")
    (h : ∀ w ∈ ([10, 15, 30, 60] : List ℚ), nmax < ntickCount axmin axmax w) :
    autoticks axtype axmin axmax none nmax =
      .error (.typeError "unsupported operand type for *: float and NoneType") := by
  have hl := autoticksLoop_none axmin axmax nmax [10, 15, 30, 60] h
  unfold autoticks widthTruthy
  rw [wlistFor_latlon axtype hax]
  simp only [hl]

/-- C10 witness: with the example bounds 0 to 1000 and the default
nmax = 8, every candidate spacing overflows the tick budget and the
calls for both axis types lat and lon end in the TypeError, not in a
ValueError. -/
theorem autoticks_all_candidates_fail_witness :
    (pyLower "lat" = "lat" ∨ pyLower "lat" = "lon") ∧
    (pyLower "lon" = "lat" ∨ pyLower "lon" = "lon") ∧
    (∀ w ∈ ([10, 15, 30, 60] : List ℚ), (8 : ℤ) < ntickCount 0 1000 w) ∧
    autoticks "lat" 0 1000 none 8 =
      .error (.typeError "unsupported operand type for *: float and NoneType") ∧
    autoticks "lon" 0 1000 none 8 =
      .error (.typeError "unsupported operand type for *: float and NoneType") := by
  have hc : ∀ w ∈ ([10, 15, 30, 60] : List ℚ), ⌈(0 : ℚ) / w⌉ = 0 := by
    intro w _
    norm_num
  have f10 : ⌊(1000 : ℚ) / 10⌋ = 100 := by
    rw [Int.floor_eq_iff]
    norm_num
  have f15 : ⌊(1000 : ℚ) / 15⌋ = 66 := by
    rw [Int.floor_eq_iff]
    norm_num
  have f30 : ⌊(1000 : ℚ) / 30⌋ = 33 := by
    rw [Int.floor_eq_iff]
    norm_num
  have f60 : ⌊(1000 : ℚ) / 60⌋ = 16 := by
    rw [Int.floor_eq_iff]
    norm_num
  have hall : ∀ w ∈ ([10, 15, 30, 60] : List ℚ), (8 : ℤ) < ntickCount 0 1000 w := by
    intro w hw
    have h0 := hc w hw
    simp only [List.mem_cons, List.not_mem_nil, or_false] at hw
    rcases hw with rfl | rfl | rfl | rfl
    · rw [ntickCount, h0, f10]
      norm_num
    · rw [ntickCount, h0, f15]
      norm_num
    · rw [ntickCount, h0, f30]
      norm_num
    · rw [ntickCount, h0, f60]
      norm_num
  exact ⟨Or.inl (by decide), Or.inr (by decide), hall,
    autoticks_all_candidates_fail "lat" 0 1000 8 (Or.inl (by decide)) hall,
    autoticks_all_candidates_fail "lon" 0 1000 8 (Or.inr (by decide)) hall⟩

theorem tickArange_eq (n1 n2 : ℤ) (w : ℚ) (hw : 0 < w) :
    tickArange n1 n2 w = stepList ((n1 : ℚ) * w) w (n2 - n1 + 1).toNat := by
  unfold tickArange
  have h : ((n2 : ℚ) + 1 / 10) * w =
      (n1 : ℚ) * w + ((n2 - n1 : ℤ) : ℚ) * w + w / 10 := by
    push_cast
    ring
  rw [h, arange_stop_int _ _ hw]

/-- C3 counterexample: with an explicit nonzero width the axis type is
never validated; autoticks("foo", 0, 100, width=10) returns a tick
array instead of failing with InvalidInput. -/
theorem autoticks_foo_explicit_width :
    autoticks "foo" 0 100 (some 10) 8 =
      .ok [0, 10, 20, 30, 40, 50, 60, 70, 80, 90, 100] := by
  have hwt : widthTruthy (some (10 : ℚ)) = some 10 := by
    simp only [widthTruthy]
    rw [if_neg (by norm_num : ¬ (10 : ℚ) = 0)]
  have hc : ⌈(0 : ℚ) / 10⌉ = 0 := by norm_num
  have hf : ⌊(100 : ℚ) / 10⌋ = 10 := by
    rw [Int.floor_eq_iff]
    norm_num
  unfold autoticks
  rw [hwt]
  simp only [hc, hf]
  rw [tickArange_eq _ _ _ (by norm_num : (0 : ℚ) < 10)]
  rw [show ((10 : ℤ) - 0 + 1).toNat = 11 from rfl]
  rw [stepList, show List.range 11 = [0, 1, 2, 3, 4, 5, 6, 7, 8, 9, 10] from rfl]
  simp only [List.map]
  norm_num

/-- C3 (amended): for every axis type other than lat, lon and pres
(case-insensitively), autoticks fails with the invalid-axtype
ValueError when the width argument is omitted; with an explicit
nonzero width the axis type is not checked and no such error is
raised (see the counterexample theorem). -/
theorem autoticks_invalid_axtype (axtype : String) (axmin axmax : ℚ)
    (nmax : ℤ) (h1 : pyLower axtype ≠ "lat") (h2 : pyLower axtype ≠ "lon")
    (h3 : pyLower axtype ≠ "pres") :
    autoticks axtype axmin axmax none nmax =
      .error (.valueError ("Invalid axtype: " ++ axtype)) := by
  unfold autoticks widthTruthy wlistFor
  rw [if_neg (by tauto), if_neg h3]

/-- C3 witness: the invalid axis type foo with width omitted raises the
ValueError. -/
theorem autoticks_invalid_axtype_witness :
    pyLower "foo" ≠ "lat" ∧ pyLower "foo" ≠ "lon" ∧ pyLower "foo" ≠ "pres" ∧
    autoticks "foo" 0 100 none 8 =
      .error (.valueError ("Invalid axtype: " ++ "foo")) :=
  ⟨by decide, by decide, by decide,
    autoticks_invalid_axtype "foo" 0 100 8 (by decide) (by decide) (by decide)⟩

/-- C5: autoticks("lat", -90, 90) with width omitted and default
nmax = 8 returns the seven ticks -90 to 90 in steps of 30; the tick
count is at most 8; every tick is an integer multiple of the chosen
spacing 30; 30 is a candidate whose inclusive multiple count between
-90 and 90 is at most 8, and every smaller candidate spacing exceeds
that bound. -/
theorem autoticks_lat_default :
    autoticks "lat" (-90) 90 none 8 =
      .ok [-90, -60, -30, 0, 30, 60, 90] ∧
    ([-90, -60, -30, 0, 30, 60, 90] : List ℚ).length ≤ 8 ∧
    (∀ x ∈ ([-90, -60, -30, 0, 30, 60, 90] : List ℚ),
      ∃ k : ℤ, x = (k : ℚ) * 30) ∧
    (30 : ℚ) ∈ ([10, 15, 30, 60] : List ℚ) ∧
    ntickCount (-90) 90 30 ≤ 8 ∧
    (∀ w ∈ ([10, 15, 30, 60] : List ℚ), w < 30 → 8 < ntickCount (-90) 90 w) := by
  have c10 : ⌈(-90 : ℚ) / 10⌉ = -9 := by
    rw [Int.ceil_eq_iff]
    norm_num
  have f10 : ⌊(90 : ℚ) / 10⌋ = 9 := by
    rw [Int.floor_eq_iff]
    norm_num
  have c15 : ⌈(-90 : ℚ) / 15⌉ = -6 := by
    rw [Int.ceil_eq_iff]
    norm_num
  have f15 : ⌊(90 : ℚ) / 15⌋ = 6 := by
    rw [Int.floor_eq_iff]
    norm_num
  have c30 : ⌈(-90 : ℚ) / 30⌉ = -3 := by
    rw [Int.ceil_eq_iff]
    norm_num
  have f30 : ⌊(90 : ℚ) / 30⌋ = 3 := by
    rw [Int.floor_eq_iff]
    norm_num
  have hloop : autoticksLoop (-90) 90 8 [10, 15, 30, 60] = some (30, -3, 3) := by
    simp only [autoticksLoop, c10, f10, c15, f15, c30, f30]
    norm_num
  refine ⟨?_, by norm_num, ?_, by norm_num, ?_, ?_⟩
  · unfold autoticks widthTruthy
    rw [wlistFor_lat]
    simp only [hloop]
    rw [tickArange_eq _ _ _ (by norm_num : (0 : ℚ) < 30)]
    rw [show ((3 : ℤ) - (-3) + 1).toNat = 7 from rfl]
    rw [stepList, show List.range 7 = [0, 1, 2, 3, 4, 5, 6] from rfl]
    simp only [List.map]
    norm_num
  · intro x hx
    simp only [List.mem_cons, List.not_mem_nil, or_false] at hx
    rcases hx with rfl | rfl | rfl | rfl | rfl | rfl | rfl
    · exact ⟨-3, by norm_num⟩
    · exact ⟨-2, by norm_num⟩
    · exact ⟨-1, by norm_num⟩
    · exact ⟨0, by norm_num⟩
    · exact ⟨1, by norm_num⟩
    · exact ⟨2, by norm_num⟩
    · exact ⟨3, by norm_num⟩
  · rw [ntickCount, c30, f30]
    norm_num
  · intro w hw hlt
    simp only [List.mem_cons, List.not_mem_nil, or_false] at hw
    rcases hw with rfl | rfl | rfl | rfl
    · rw [ntickCount, c10, f10]
      norm_num
    · rw [ntickCount, c15, f15]
      norm_num
    · exact absurd hlt (by norm_num)
    · exact absurd hlt (by norm_num)

/-! Reduction lemmas exposing the arange call of each clevels mode. -/

theorem clevels_both_symm_eq (data : List ℚ) (cint : ℚ) :
    clevels data cint "both" true false =
      arange (-((⌈npMax (data.map (fun x => |x|)) / cint⌉ : ℚ) * cint))
        ((⌈npMax (data.map (fun x => |x|)) / cint⌉ : ℚ) * cint + cint / 10)
        cint := rfl

theorem clevels_pos_eq (data : List ℚ) (cint : ℚ) :
    clevels data cint "pos" false false =
      arange 0 ((⌈npMax data / cint⌉ : ℚ) * cint + cint / 10) cint := rfl

theorem clevels_neg_eq (data : List ℚ) (cint : ℚ) :
    clevels data cint "neg" false false =
      arange ((⌊npMin data / cint⌋ : ℚ) * cint) (0 + cint / 10) cint := rfl

/-! Claim theorems. -/

/-- C4: for nonempty data and positive cint, symmetric clevels returns
a sequence symmetric about 0 whose first and last elements are -bound
and bound, where bound is the smallest multiple of cint that is at
least the maximum absolute value of the data. -/
theorem clevels_symmetric_spec (data : List ℚ) (cint : ℚ)
    (hd : data ≠ []) (hc : 0 < cint) :
    ∃ bound : ℚ,
      (∃ k : ℤ, bound = (k : ℚ) * cint) ∧
      npMax (data.map (fun x => |x|)) ≤ bound ∧
      (∀ j : ℤ, npMax (data.map (fun x => |x|)) ≤ (j : ℚ) * cint →
        bound ≤ (j : ℚ) * cint) ∧
      (clevels data cint "both" true false).head? = some (-bound) ∧
      (clevels data cint "both" true false).getLast? = some bound ∧
      (clevels data cint "both" true false).reverse =
        (clevels data cint "both" true false).map (fun x => -x) := by
  have hM0 : 0 ≤ npMax (data.map (fun x => |x|)) := npMax_abs_nonneg data hd
  set M := npMax (data.map (fun x => |x|)) with hMdef
  set kZ := ⌈M / cint⌉ with hkZ
  have hk0 : 0 ≤ kZ := Int.ceil_nonneg (div_nonneg hM0 hc.le)
  set k := kZ.toNat with hkdef
  have hkQ : ((kZ : ℤ) : ℚ) = (k : ℚ) := by
    rw [hkdef]
    exact_mod_cast (Int.toNat_of_nonneg hk0).symm
  have hL : clevels data cint "both" true false =
      stepList (-((k : ℚ) * cint)) cint (2 * k + 1) := by
    rw [clevels_both_symm_eq, ← hMdef, ← hkZ, hkQ]
    have hstop : (k : ℚ) * cint + cint / 10 =
        -((k : ℚ) * cint) + ((2 * k : ℕ) : ℤ) * cint + cint / 10 := by
      push_cast
      ring
    rw [hstop, arange_stop_int _ _ hc]
    congr 1
  refine ⟨(k : ℚ) * cint, ⟨(k : ℤ), by push_cast; ring⟩, ?_, ?_, ?_, ?_, ?_⟩
  · have h1 : M / cint ≤ (kZ : ℚ) := Int.le_ceil (M / cint)
    have h2 : M ≤ (kZ : ℚ) * cint := (div_le_iff₀ hc).mp h1
    rwa [hkQ] at h2
  · intro j hj
    have h1 : M / cint ≤ (j : ℚ) := (div_le_iff₀ hc).mpr hj
    have h2 : kZ ≤ j := Int.ceil_le.mpr h1
    have h3 : ((kZ : ℤ) : ℚ) ≤ ((j : ℤ) : ℚ) := by exact_mod_cast h2
    rw [hkQ] at h3
    exact mul_le_mul_of_nonneg_right h3 hc.le
  · rw [hL]
    exact stepList_head _ _ (2 * k)
  · rw [hL]
    rw [stepList_last _ _ (2 * k)]
    congr 1
    push_cast
    ring
  · rw [hL]
    exact stepList_reverse_neg k cint

/-- C4 witness: the data [3, -7] with cint 5 satisfies the hypotheses,
and the symmetric level specification holds there. -/
theorem clevels_symmetric_spec_witness :
    ([3, -7] : List ℚ) ≠ [] ∧ (0 : ℚ) < 5 ∧
    (∃ bound : ℚ,
      (∃ k : ℤ, bound = (k : ℚ) * 5) ∧
      npMax (([3, -7] : List ℚ).map (fun x => |x|)) ≤ bound ∧
      (∀ j : ℤ, npMax (([3, -7] : List ℚ).map (fun x => |x|)) ≤ (j : ℚ) * 5 →
        bound ≤ (j : ℚ) * 5) ∧
      (clevels [3, -7] 5 "both" true false).head? = some (-bound) ∧
      (clevels [3, -7] 5 "both" true false).getLast? = some bound ∧
      (clevels [3, -7] 5 "both" true false).reverse =
        (clevels [3, -7] 5 "both" true false).map (fun x => -x)) :=
  ⟨by simp, by norm_num, clevels_symmetric_spec [3, -7] 5 (by simp) (by norm_num)⟩

/-- C9: each of pcolor_latpres, contourf_latpres and contourf_timelat is
an empty stub: every call records no plot command and returns None. -/
theorem stubs_no_effect : ∀ u : Unit,
    pcolor_latpres u = ([], Option.none) ∧
    contourf_latpres u = ([], Option.none) ∧
    contourf_timelat u = ([], Option.none) := by
  intro u
  exact ⟨rfl, rfl, rfl⟩

/-- C2: the facade re-export list for the plots module names latlon_str,
cinterval, climits, colorbar_symm, geobox and stipple_pts, none of which
the plots module defines, so the from-plots import of the facade always
raises ImportError (at the first missing name, latlon_str) and no facade
operation is reachable. -/
theorem facade_import_fails :
    import_plots_into_facade = .error (.importError "latlon_str") ∧
    ∀ n ∈ ["latlon_str", "cinterval", "climits", "colorbar_symm",
           "geobox", "stipple_pts"],
      n ∈ facade_plots_imports ∧ n ∉ plots_defined := by
  constructor
  · rfl
  · decide

/-- C8: latlon_labels maps each value to its rendering with fmt followed
by the degree sign and N when nonnegative, or the rendering of its
absolute value followed by the degree sign and S when negative; with
axis lon the suffixes are E and W. -/
theorem latlon_labels_spec : ∀ (vals : List ℚ) (fmt : ℚ → String),
    latlon_labels vals "lat" fmt =
      .ok (vals.map (fun v =>
        if 0 ≤ v then fmt v ++ degree_sign ++ "N"
        else fmt |v| ++ degree_sign ++ "S")) ∧
    latlon_labels vals "lon" fmt =
      .ok (vals.map (fun v =>
        if 0 ≤ v then fmt v ++ degree_sign ++ "E"
        else fmt |v| ++ degree_sign ++ "W")) := by
  intro vals fmt
  exact ⟨rfl, rfl⟩

/-- C6: with a scalar clev, contourf_latlon draws filled contours at
clevels(data, clev, symmetric=true) by default while contour_latlon
draws line contours at clevels(data, clev) with symmetric false; with
clev absent both pass no levels and the underlying primitive picks them
automatically. -/
theorem latlon_scalar_clev_spec :
    ∀ (vals : List (List ℚ)) (lat lon : Option (List ℚ)) (c : ℚ),
    contourf_latlon (.nd vals) lat lon (.scalar c) true =
      .ok [.contourfCmd vals (clevels vals.flatten c "both" true false),
           .colorbar] ∧
    contour_latlon (.nd vals) lat lon (.scalar c) true =
      .ok [.contourCmd vals (clevels vals.flatten c "both" false false)] ∧
    contourf_latlon (.nd vals) lat lon .auto true =
      .ok [.contourfAuto vals, .colorbar] ∧
    contour_latlon (.nd vals) lat lon .auto true =
      .ok [.contourAuto vals] := by
  intro vals lat lon c
  exact ⟨rfl, rfl, rfl, rfl⟩

/-- C1 (code bug): for every data array and every choice of the other
arguments, calling contour_latpres with topo absent raises a TypeError
from the statement assigning None to the pair topo_ps, topo_lat, instead
of drawing the contour lines. -/
theorem contour_latpres_topo_none_raises :
    ∀ (data : LPData) (lat plev : Option (List ℚ)) (clev : Clev)
      (axlims : ℚ × ℚ × ℚ × ℚ),
    contour_latpres data lat plev clev .none axlims =
      .error (.typeError "cannot unpack non-iterable NoneType") := by
  intro data lat plev clev axlims
  cases data <;> rfl

/-- C7 counterexample: for the all-negative data [-10, -5] with cint 2,
posneg pos yields an empty level array, so the levels do not run from
the clamped minimum 0 to the ceiled maximum inclusive; in particular 0
is not among them. -/
theorem clevels_pos_all_negative :
    clevels [-10, -5] 2 "pos" false false = [] ∧
    (0 : ℚ) ∉ clevels [-10, -5] 2 "pos" false false := by
  have h1 : npMax [-10, -5] = -5 := by
    show max (-10 : ℚ) (-5) = -5
    rw [max_eq_right (by norm_num : (-10 : ℚ) ≤ -5)]
  have h2 : ⌈(-5 : ℚ) / 2⌉ = -2 := by
    rw [Int.ceil_eq_iff]
    norm_num
  have hred := clevels_pos_eq [-10, -5] 2
  rw [h1, h2] at hred
  have hstop : ((-2 : ℤ) : ℚ) * 2 + 2 / 10 = 0 + ((-2 : ℤ) : ℚ) * 2 + 2 / 10 := by
    ring
  rw [hstop, arange_stop_int 0 2 (by norm_num) (-2)] at hred
  rw [show ((-2 : ℤ) + 1).toNat = 0 from rfl] at hred
  refine ⟨hred.trans rfl, ?_⟩
  rw [hred]
  simp [stepList]

/-- C7 (amended): for nonempty data and positive cint, posneg pos
clamps the minimum to 0 so every returned level is nonnegative, and
posneg neg clamps the maximum to 0 so every returned level is
nonpositive.  When the ceiled data maximum is nonnegative the pos
levels run from 0 to that maximum inclusive in steps of cint, and when
the floored data minimum is nonpositive the neg levels run from that
minimum to 0 inclusive in steps of cint; when the data lies strictly on
the other side of 0 the returned level array is empty. -/
theorem clevels_posneg_spec (data : List ℚ) (cint : ℚ)
    (hd : data ≠ []) (hc : 0 < cint) :
    (∀ x ∈ clevels data cint "pos" false false, 0 ≤ x) ∧
    (∀ x ∈ clevels data cint "neg" false false, x ≤ 0) ∧
    (0 ≤ ⌈npMax data / cint⌉ →
      (clevels data cint "pos" false false).head? = some 0 ∧
      (clevels data cint "pos" false false).getLast? =
        some ((⌈npMax data / cint⌉ : ℚ) * cint) ∧
      List.Chain' (fun p q => q - p = cint)
        (clevels data cint "pos" false false)) ∧
    (⌈npMax data / cint⌉ < 0 → clevels data cint "pos" false false = []) ∧
    (⌊npMin data / cint⌋ ≤ 0 →
      (clevels data cint "neg" false false).head? =
        some ((⌊npMin data / cint⌋ : ℚ) * cint) ∧
      (clevels data cint "neg" false false).getLast? = some 0 ∧
      List.Chain' (fun p q => q - p = cint)
        (clevels data cint "neg" false false)) ∧
    (0 < ⌊npMin data / cint⌋ → clevels data cint "neg" false false = []) := by
  set kP := ⌈npMax data / cint⌉ with hkP
  set jN := ⌊npMin data / cint⌋ with hjN
  have hLpos : clevels data cint "pos" false false =
      stepList 0 cint (kP + 1).toNat := by
    rw [clevels_pos_eq, ← hkP]
    have hstop : ((kP : ℤ) : ℚ) * cint + cint / 10 =
        0 + (kP : ℚ) * cint + cint / 10 := by ring
    rw [hstop, arange_stop_int 0 cint hc kP]
  have hLneg : clevels data cint "neg" false false =
      stepList ((jN : ℚ) * cint) cint (-jN + 1).toNat := by
    rw [clevels_neg_eq, ← hjN]
    have hstop : (0 : ℚ) + cint / 10 =
        (jN : ℚ) * cint + ((-jN : ℤ) : ℚ) * cint + cint / 10 := by
      push_cast
      ring
    rw [hstop, arange_stop_int ((jN : ℚ) * cint) cint hc (-jN)]
  refine ⟨?_, ?_, ?_, ?_, ?_, ?_⟩
  · intro x hx
    rw [hLpos] at hx
    obtain ⟨i, _, rfl⟩ := stepList_mem _ _ _ _ hx
    have hnn : (0 : ℚ) ≤ (i : ℚ) * cint :=
      mul_nonneg (by exact_mod_cast Nat.zero_le i) hc.le
    linarith
  · intro x hx
    rw [hLneg] at hx
    obtain ⟨i, hi, rfl⟩ := stepList_mem _ _ _ _ hx
    have hiz : (i : ℤ) + jN ≤ 0 := by omega
    have hq : ((i : ℚ) + (jN : ℚ)) ≤ 0 := by exact_mod_cast hiz
    have heq : (jN : ℚ) * cint + (i : ℚ) * cint = ((i : ℚ) + (jN : ℚ)) * cint := by
      ring
    rw [heq]
    exact mul_nonpos_iff.mpr (Or.inr ⟨hq, hc.le⟩)
  · intro hkp
    have htn : (kP + 1).toNat = kP.toNat + 1 := by omega
    rw [hLpos, htn]
    refine ⟨stepList_head _ _ _, ?_, stepList_chain _ _ _⟩
    rw [stepList_last]
    have hcast : ((kP.toNat : ℕ) : ℚ) = ((kP : ℤ) : ℚ) := by
      exact_mod_cast Int.toNat_of_nonneg hkp
    congr 1
    rw [hcast]
    ring
  · intro hkn
    rw [hLpos, show (kP + 1).toNat = 0 by omega]
    rfl
  · intro hjn
    have htn : (-jN + 1).toNat = (-jN).toNat + 1 := by omega
    rw [hLneg, htn]
    refine ⟨stepList_head _ _ _, ?_, stepList_chain _ _ _⟩
    rw [stepList_last]
    have hcast : (((-jN).toNat : ℕ) : ℚ) = ((-jN : ℤ) : ℚ) := by
      exact_mod_cast Int.toNat_of_nonneg (by omega : (0 : ℤ) ≤ -jN)
    congr 1
    rw [hcast]
    push_cast
    ring
  · intro hjp
    rw [hLneg, show (-jN + 1).toNat = 0 by omega]
    rfl

/-- C7 witness: the data [-3, 7] with cint 2 satisfies the hypotheses,
and the clamped level specification holds there. -/
theorem clevels_posneg_spec_witness :
    ([-3, 7] : List ℚ) ≠ [] ∧ (0 : ℚ) < 2 ∧
    ((∀ x ∈ clevels [-3, 7] 2 "pos" false false, 0 ≤ x) ∧
    (∀ x ∈ clevels [-3, 7] 2 "neg" false false, x ≤ 0) ∧
    (0 ≤ ⌈npMax [-3, 7] / 2⌉ →
      (clevels [-3, 7] 2 "pos" false false).head? = some 0 ∧
      (clevels [-3, 7] 2 "pos" false false).getLast? =
        some ((⌈npMax [-3, 7] / 2⌉ : ℚ) * 2) ∧
      List.Chain' (fun p q => q - p = 2)
        (clevels [-3, 7] 2 "pos" false false)) ∧
    (⌈npMax [-3, 7] / 2⌉ < 0 → clevels [-3, 7] 2 "pos" false false = []) ∧
    (⌊npMin [-3, 7] / 2⌋ ≤ 0 →
      (clevels [-3, 7] 2 "neg" false false).head? =
        some ((⌊npMin [-3, 7] / 2⌋ : ℚ) * 2) ∧
      (clevels [-3, 7] 2 "neg" false false).getLast? = some 0 ∧
      List.Chain' (fun p q => q - p = 2)
        (clevels [-3, 7] 2 "neg" false false)) ∧
    (0 < ⌊npMin [-3, 7] / 2⌋ → clevels [-3, 7] 2 "neg" false false = [])) :=
  ⟨by simp, by norm_num, clevels_posneg_spec [-3, 7] 2 (by simp) (by norm_num)⟩

end AtmosPlots
